import Mathlib

/-!
Shallow embedding of the metrics aggregation and load classification engine
of `src/core/database.py` (class `DatabaseManager` and class
`SimpleAnomalyDetector`).

Modelling conventions:
* Python dicts are insertion-ordered association lists with distinct keys;
  `d.get(k, 0) + c` updates are `dictAdd`, `d[k]` lookups are `dictLookup`.
* Each report operation wraps its body in `try ... except: print(...); return None`.
  We model the adapter call as an `Except String` value (an `Except.error`
  stands for any exception raised by the backend client) and the catch-all
  handler as returning `none`.
* Python float arithmetic on these small counts is modelled exactly over `ℚ`
  (the thresholds 1.1 and 0.9 become 11/10 and 9/10).
* A Python function that may `return None`, raise, or return a value is given
  the codomain `PyOutcome`.
-/

/-- Python `d[k]` on a dict modelled as an association list: the binding of
the first matching key (Python dicts hold each key once). `none` means
`k not in d`. -/
def dictLookup {α β : Type} [DecidableEq α] : List (α × β) → α → Option β
  | [], _ => none
  | p :: t, k => if p.1 = k then some p.2 else dictLookup t k

/-- Python `d[k] = d.get(k, 0) + c`: update the existing binding in place, or
append a fresh one, preserving insertion order. -/
def dictAdd {α : Type} [DecidableEq α] : List (α × Int) → α → Int → List (α × Int)
  | [], k, c => [(k, c)]
  | p :: t, k, c => if p.1 = k then (p.1, p.2 + c) :: t else p :: dictAdd t k c

/-- Python `sum(d.values())`. -/
def sumValues {α : Type} (d : List (α × Int)) : Int := (d.map Prod.snd).sum

/-! ## Creation report (`DatabaseManager.get_creation_metrics`)

The MongoDB aggregation groups creation events by `(date, hour, source)` and
returns one row per group with its count; the rows are what the `for r in
results` loop consumes. -/

/-- One grouped row of the creation adapter: `r['_id']['date']`,
`r['_id']['hour']`, `r['_id']['source']`, `r['count']`. -/
structure CreationRow where
  date : String
  hour : Int
  source : String
  count : Int
deriving DecidableEq

/-- The creation report dict returned by `get_creation_metrics`. -/
structure CreationReport where
  total_count : Int
  by_source : List (String × Int)
  by_hour : List (Int × Int)
  trend_data : List CreationRow
deriving DecidableEq

/-- One iteration of the `for r in results` loop: accumulate `by_source` and
`by_hour` (the `df_data` entry appended is the row itself, so `trend_data`
is the row list and needs no accumulator). -/
def creation_step (acc : List (String × Int) × List (Int × Int)) (r : CreationRow) :
    List (String × Int) × List (Int × Int) :=
  (dictAdd acc.1 r.source r.count, dictAdd acc.2 r.hour r.count)

/-- The body of `get_creation_metrics` after the adapter returned `results`:
builds `by_source` and `by_hour` by folding over the rows and derives
`total_count` as `sum(by_source.values())`. -/
def get_creation_metrics_rows (results : List CreationRow) : CreationReport :=
  let agg := results.foldl creation_step ([], [])
  { total_count := sumValues agg.1
    by_source := agg.1
    by_hour := agg.2
    trend_data := results }

/-- `get_creation_metrics`: on any exception from the MongoDB adapter the
catch-all handler prints and returns `None`. -/
def get_creation_metrics (fetch : Except String (List CreationRow)) :
    Option CreationReport :=
  match fetch with
  | .error _ => none
  | .ok results => some (get_creation_metrics_rows results)

/-! ## Movement report (`DatabaseManager.get_movement_data`)

The TimescaleDB query returns one row per `(hour bucket, source, destination,
status)` group with its `movement_count`. The summary uses
`pd.DataFrame(results)['status'].value_counts()`: on an empty row list the
DataFrame has no `status` column, so the column access raises `KeyError`,
which the catch-all handler turns into `None`. -/

/-- One row of the movement query. -/
structure MovementRow where
  hour : String
  source : String
  destination : String
  status : String
  movement_count : Int
deriving DecidableEq

/-- `pandas.Series.value_counts().to_dict()`: each distinct value of the
column mapped to its number of occurrences (pandas orders the dict by
frequency; only the mapping content matters here). -/
def value_counts (l : List String) : List (String × Nat) :=
  l.dedup.map (fun s => (s, l.count s))

/-- The `summary` dict of the movement report. -/
structure MovementSummary where
  total_movements : Int
  by_status : List (String × Nat)
  by_source : List (String × Nat)
deriving DecidableEq

/-- The movement report dict. -/
structure MovementReport where
  movements : List MovementRow
  summary : MovementSummary
deriving DecidableEq

/-- The body of `get_movement_data` after the query returned `results`. The
empty-row case models `pd.DataFrame([])['status']` raising `KeyError`, which
the except handler converts to `None`. -/
def get_movement_data_rows (results : List MovementRow) : Option MovementReport :=
  if results = [] then none
  else
    some
      { movements := results
        summary :=
          { total_movements := (results.map (fun r => r.movement_count)).sum
            by_status := value_counts (results.map (fun r => r.status))
            by_source := value_counts (results.map (fun r => r.source)) } }

/-- `get_movement_data`: adapter failure is caught and becomes `None`. -/
def get_movement_data (fetch : Except String (List MovementRow)) :
    Option MovementReport :=
  match fetch with
  | .error _ => none
  | .ok results => get_movement_data_rows results

/-! ## Access report (`DatabaseManager.get_access_patterns`)

The Elasticsearch query returns three aggregation bucket lists; the function
re-keys each bucket list into a dict (`key_as_string` or `key` mapped to
`doc_count`). -/

/-- The three bucket lists of the Elasticsearch response, already as
(key, doc_count) pairs. -/
structure AccessAggs where
  access_by_hour : List (String × Int)
  access_by_user : List (String × Int)
  access_by_action : List (String × Int)
deriving DecidableEq

/-- The access report dict. -/
structure AccessReport where
  by_hour : List (String × Int)
  by_user : List (String × Int)
  by_action : List (String × Int)
deriving DecidableEq

/-- `get_access_patterns`: passes the three bucket lists through as dicts;
any exception from the search client is caught and becomes `None`. -/
def get_access_patterns (fetch : Except String AccessAggs) : Option AccessReport :=
  match fetch with
  | .error _ => none
  | .ok a =>
      some { by_hour := a.access_by_hour
             by_user := a.access_by_user
             by_action := a.access_by_action }

/-! ## Usage report (`DatabaseManager.get_usage_analytics`)

Two sources inside one `try`: the Redis counter cache
(`get('usage:total_records')`, which yields `None` when the key is unset,
wrapped in `int(... or 0)`, and `hgetall('usage:by_source')`) and an
Elasticsearch histogram. Each source is modelled as an `Except`: an
`Except.error` is an exception raised by that client, and reaches the single
catch-all handler. -/

/-- The `current_metrics` half of the usage report. -/
structure CurrentMetrics where
  total_records : Int
  by_source : List (String × Int)
deriving DecidableEq

/-- The usage report dict (`historical_metrics` holds only `over_time`). -/
structure UsageReport where
  current_metrics : CurrentMetrics
  historical_over_time : List (String × Int)
deriving DecidableEq

/-- `get_usage_analytics`: `redis_total` is `get('usage:total_records')`
(`none` = key unset, defaulted to 0 by `int(... or 0)`), `redis_by_source`
is `hgetall('usage:by_source')`, `es_over_time` the histogram buckets. Any
`Except.error` reaches the catch-all handler, which returns `None`. -/
def get_usage_analytics (redis_total : Except String (Option Int))
    (redis_by_source : Except String (List (String × Int)))
    (es_over_time : Except String (List (String × Int))) : Option UsageReport :=
  match redis_total with
  | .error _ => none
  | .ok t =>
    match redis_by_source with
    | .error _ => none
    | .ok bs =>
      match es_over_time with
      | .error _ => none
      | .ok buckets =>
          some { current_metrics := { total_records := t.getD 0, by_source := bs }
                 historical_over_time := buckets }

/-! ## Load classifier (`SimpleAnomalyDetector.analyze_load_patterns`)

The input is a Python dict whose keys are ints (as `by_hour` of
`get_creation_metrics` is keyed) or strings; `PyKey` captures both. The
partition lookups test string keys (`str(hour) in hourly_data`), while the
per-hour loop converts each key with `int(hour)`. -/

/-- A Python dict key of the hourly mapping: an int or a string. -/
inductive PyKey where
  | int (n : Int)
  | str (s : String)
deriving DecidableEq

/-- The numeric value of a decimal digit character, by its distance from
the code point of the zero digit. -/
def digitVal? (c : Char) : Option Nat :=
  if '0' ≤ c ∧ c ≤ '9' then some (c.toNat - 48) else none

/-- A non-empty run of decimal digits read left to right. -/
def parseNatAux : List Char → Nat → Option Nat
  | [], acc => some acc
  | c :: cs, acc =>
    match digitVal? c with
    | none => none
    | some d => parseNatAux cs (acc * 10 + d)

/-- Python `int(s)` on a string: an optional sign followed by decimal
digits; `none` models the `ValueError`. (The whitespace and underscore
forms `int` also tolerates do not occur among hour keys.) -/
def py_int_of_string (s : String) : Option Int :=
  match s.data with
  | [] => none
  | '-' :: cs => if cs = [] then none else (parseNatAux cs 0).map (fun n => -(n : Int))
  | '+' :: cs => if cs = [] then none else (parseNatAux cs 0).map (fun n => (n : Int))
  | cs => (parseNatAux cs 0).map (fun n => (n : Int))

/-- Python `int(hour)` on a dict key: an int key unchanged, a string key
parsed as a decimal integer (`none` models the `ValueError`). -/
def PyKey.toIntOpt : PyKey → Option Int
  | .int n => some n
  | .str s => py_int_of_string s

/-- Outcome of a Python call that may `return None`, raise, or return. -/
inductive PyOutcome (α : Type) where
  | retNone
  | raised (msg : String)
  | ret (v : α)
deriving DecidableEq

/-- The value held by a `PyOutcome.ret`, if any. -/
def PyOutcome.retOpt {α : Type} : PyOutcome α → Option α
  | .ret v => some v
  | _ => none

/-- `self.multipliers['work_hours'] = range(9, 18)`. -/
def work_hours_range : List Nat := List.range' 9 9

/-- `self.multipliers['work_hours_threshold'] = 1.1`. -/
def work_hours_threshold : ℚ := 11 / 10

/-- `self.multipliers['off_hours_threshold'] = 0.9`. -/
def off_hours_threshold : ℚ := 9 / 10

/-- `self.multipliers['high_load'] = 1.1`. -/
def high_load : ℚ := 11 / 10

/-- `self.multipliers['low_load'] = 0.9`. -/
def low_load : ℚ := 9 / 10

/-- One entry of `load_patterns`. -/
structure LoadPattern where
  hour : Int
  count : Int
  load_ratio : ℚ
  status : String
  action : String
  is_work_hour : Bool
  expected_threshold : ℚ
deriving DecidableEq

/-- The `summary` dict of the classifier result. -/
structure LoadSummary where
  average_load : ℚ
  work_hours_avg : ℚ
  off_hours_avg : ℚ
  peak_hours : List LoadPattern
  quiet_hours : List LoadPattern
  high_load_hours : Nat
  low_load_hours : Nat
deriving DecidableEq

/-- The classifier result dict. -/
structure LoadAnalysis where
  patterns : List LoadPattern
  summary : LoadSummary
deriving DecidableEq

/-- `avg_load = sum(values) / len(values)` over `values = list(d.values())`. -/
def avg_load (d : List (PyKey × Int)) : ℚ :=
  (((d.map Prod.snd).sum : Int) : ℚ) / ((d.map Prod.snd).length : ℚ)

/-- `work_hours_values`: for each hour of `range(9, 18)` whose string form is
a key of the dict, that key's value, in range order. -/
def work_hours_values (d : List (PyKey × Int)) : List Int :=
  work_hours_range.filterMap (fun h => dictLookup d (PyKey.str (toString h)))

/-- The hours of `range(24)` not in `range(9, 18)`, in range order. -/
def off_hours_range : List Nat :=
  (List.range 24).filter (fun h => ! decide (h ∈ work_hours_range))

/-- `off_hours_values`: same lookup for the off hours. -/
def off_hours_values (d : List (PyKey × Int)) : List Int :=
  off_hours_range.filterMap (fun h => dictLookup d (PyKey.str (toString h)))

/-- `work_hours_avg`: partition mean, falling back to `avg_load` when the
lookup found no value. -/
def work_hours_avg (d : List (PyKey × Int)) : ℚ :=
  if work_hours_values d = [] then avg_load d
  else (((work_hours_values d).sum : Int) : ℚ) / ((work_hours_values d).length : ℚ)

/-- `off_hours_avg`: same for the off-hours lookup. -/
def off_hours_avg (d : List (PyKey × Int)) : ℚ :=
  if off_hours_values d = [] then avg_load d
  else (((off_hours_values d).sum : Int) : ℚ) / ((off_hours_values d).length : ℚ)

/-- The body of one iteration of the `for hour, count in hourly_data.items()`
loop, once `int(hour)` succeeded and the average is nonzero:
`is_work_hour` is membership of the int hour in `range(9, 18)`, the baseline
is the partition average, the explanatory threshold multiplies the baseline,
the load ratio divides by the global average, and the status and action come
from comparing the ratio with the two fixed multipliers. -/
def mkLoadPattern (avg work_avg off_avg : ℚ) (hour count : Int) : LoadPattern :=
  let is_work := decide (9 ≤ hour ∧ hour < 18)
  let baseline := if is_work then work_avg else off_avg
  let expected :=
    if is_work then baseline * work_hours_threshold
    else baseline * off_hours_threshold
  let ratio : ℚ := (count : ℚ) / avg
  let sa : String × String :=
    if ratio ≥ high_load then ("high", "scale_up")
    else if ratio ≤ low_load then ("low", "scale_down")
    else ("normal", "maintain")
  { hour := hour, count := count, load_ratio := ratio,
    status := sa.1, action := sa.2, is_work_hour := is_work,
    expected_threshold := expected }

/-- The `for hour, count in hourly_data.items()` loop. Per item:
`int(hour)` may raise `ValueError`; `count / avg_load` raises
`ZeroDivisionError` when the average is zero; otherwise the item yields its
`LoadPattern`. -/
def analyze_items (avg work_avg off_avg : ℚ) :
    List (PyKey × Int) → Except String (List LoadPattern)
  | [] => .ok []
  | (k, count) :: rest =>
    match PyKey.toIntOpt k with
    | none => .error "ValueError"
    | some hour =>
      if avg = 0 then .error "ZeroDivisionError"
      else
        match analyze_items avg work_avg off_avg rest with
        | .error e => .error e
        | .ok ps => .ok (mkLoadPattern avg work_avg off_avg hour count :: ps)

/-- Stable insertion of a pattern into a count-descending list: the inserted
element goes before the first element whose count is not larger, matching
the stability of `list.sort(key=..., reverse=True)`. -/
def insertDesc (p : LoadPattern) : List LoadPattern → List LoadPattern
  | [] => [p]
  | q :: t => if q.count > p.count then q :: insertDesc p t else p :: q :: t

/-- `load_patterns.sort(key=lambda x: x['count'], reverse=True)`. -/
def sortDesc : List LoadPattern → List LoadPattern
  | [] => []
  | p :: t => insertDesc p (sortDesc t)

/-- Python `l[-3:]`. -/
def lastThree (l : List LoadPattern) : List LoadPattern := l.drop (l.length - 3)

/-- `SimpleAnomalyDetector.analyze_load_patterns`: `retNone` for an empty
dict, `raised` when the loop raises, otherwise the patterns sorted by count
descending together with the summary. -/
def analyze_load_patterns (hourly_data : List (PyKey × Int)) : PyOutcome LoadAnalysis :=
  if hourly_data = [] then .retNone
  else
    match analyze_items (avg_load hourly_data) (work_hours_avg hourly_data)
        (off_hours_avg hourly_data) hourly_data with
    | .error e => .raised e
    | .ok ps =>
        .ret
          { patterns := sortDesc ps
            summary :=
              { average_load := avg_load hourly_data
                work_hours_avg := work_hours_avg hourly_data
                off_hours_avg := off_hours_avg hourly_data
                peak_hours := (sortDesc ps).take 3
                quiet_hours := lastThree (sortDesc ps)
                high_load_hours :=
                  ((sortDesc ps).filter (fun p => decide (p.status = "high"))).length
                low_load_hours :=
                  ((sortDesc ps).filter (fun p => decide (p.status = "low"))).length } }

/-! ## Specification-side views of the partition

The spec describes the partition averages by which entries of the mapping
belong to each hour partition; the code instead iterates the partition hours
and looks each `str(hour)` up. The two views are related by permutation. -/

/-- The dict keys `str(h)` of a list of hours. -/
def hourStrKeys (hs : List Nat) : List PyKey :=
  hs.map (fun h => PyKey.str (toString h))

/-- The values of the entries of `d` whose key lies in `ks`. -/
def keyedValues (d : List (PyKey × Int)) (ks : List PyKey) : List Int :=
  (d.filter (fun p => decide (p.1 ∈ ks))).map Prod.snd

/-! ## Example inputs and results used by concrete witnesses -/

/-- An integer-keyed hourly mapping, as `by_hour` of a creation report is
keyed: hour 9 saw 2 events, hour 0 saw 1. -/
def C6ex : List (PyKey × Int) := [(PyKey.int 9, 2), (PyKey.int 0, 1)]

/-- The pattern the classifier emits for hour 9 of `C6ex`. -/
def C6p9 : LoadPattern :=
  { hour := 9, count := 2, load_ratio := 4/3, status := "high", action := "scale_up",
    is_work_hour := true, expected_threshold := 33/20 }

/-- The pattern the classifier emits for hour 0 of `C6ex`. -/
def C6p0 : LoadPattern :=
  { hour := 0, count := 1, load_ratio := 2/3, status := "low", action := "scale_down",
    is_work_hour := false, expected_threshold := 27/20 }

/-- The full classifier result on `C6ex`. -/
def C6res : LoadAnalysis :=
  { patterns := [C6p9, C6p0]
    summary :=
      { average_load := 3/2, work_hours_avg := 3/2, off_hours_avg := 3/2,
        peak_hours := [C6p9, C6p0], quiet_hours := [C6p9, C6p0],
        high_load_hours := 1, low_load_hours := 1 } }

/-- A string-keyed hourly mapping: hour "9" saw 100 events, hour "0" saw 10. -/
def C7ex : List (PyKey × Int) := [(PyKey.str "9", 100), (PyKey.str "0", 10)]

/-- The pattern the classifier emits for hour "9" of `C7ex`. -/
def C7p9 : LoadPattern :=
  { hour := 9, count := 100, load_ratio := 20/11, status := "high", action := "scale_up",
    is_work_hour := true, expected_threshold := 110 }

/-- The pattern the classifier emits for hour "0" of `C7ex`. -/
def C7p0 : LoadPattern :=
  { hour := 0, count := 10, load_ratio := 2/11, status := "low", action := "scale_down",
    is_work_hour := false, expected_threshold := 9 }

/-- The full classifier result on `C7ex`. -/
def C7res : LoadAnalysis :=
  { patterns := [C7p9, C7p0]
    summary :=
      { average_load := 55, work_hours_avg := 100, off_hours_avg := 10,
        peak_hours := [C7p9, C7p0], quiet_hours := [C7p9, C7p0],
        high_load_hours := 1, low_load_hours := 1 } }

/-- Two movement rows sharing status "completed" with movement counts 5
and 7. -/
def C3rows : List MovementRow :=
  [{ hour := "2024-01-01 00:00", source := "A", destination := "B",
     status := "completed", movement_count := 5 },
   { hour := "2024-01-01 00:00", source := "A", destination := "C",
     status := "completed", movement_count := 7 }]

/-- One creation row: 5 events from source "web" in hour 0. -/
def C8row : CreationRow := { date := "2024-01-01", hour := 0, source := "web", count := 5 }

/-- The creation report on the single row `C8row`. -/
def C8rep : CreationReport :=
  { total_count := 5, by_source := [("web", 5)], by_hour := [(0, 5)], trend_data := [C8row] }

/-- One movement row with count 4. -/
def C9row : MovementRow :=
  { hour := "2024-01-01 00:00", source := "A", destination := "B",
    status := "completed", movement_count := 4 }

/-- The movement report on the single row `C9row`. -/
def C9rep : MovementReport :=
  { movements := [C9row]
    summary := { total_movements := 4, by_status := [("completed", 1)],
                 by_source := [("A", 1)] } }

/-! ## Helper lemmas -/

/-- A lookup over a list of pairs built by pairing each element with a
function of itself: present elements map to their image, others to `none`. -/
lemma dictLookup_map_self {β : Type} [DecidableEq β] (f : String → β) (l : List String)
    (a : String) :
    dictLookup (l.map (fun s => (s, f s))) a = if a ∈ l then some (f a) else none := by
  induction l with
  | nil => simp [dictLookup]
  | cons s t ih =>
    by_cases hsa : s = a
    · subst hsa
      simp [dictLookup]
    · simp only [List.map_cons, dictLookup, List.mem_cons]
      rw [if_neg hsa, ih]
      simp [Ne.symm hsa]

/-- Inversion for a movement report: the rows were non-empty and the report
fields are as `get_movement_data` builds them. -/
lemma get_movement_data_ok_inv {rows : List MovementRow} {rep : MovementReport}
    (h : get_movement_data (Except.ok rows) = some rep) :
    rows ≠ [] ∧
    rep = { movements := rows
            summary :=
              { total_movements := (rows.map (fun r => r.movement_count)).sum
                by_status := value_counts (rows.map (fun r => r.status))
                by_source := value_counts (rows.map (fun r => r.source)) } } := by
  by_cases hr : rows = []
  · subst hr
    simp [get_movement_data, get_movement_data_rows] at h
  · refine ⟨hr, ?_⟩
    rw [get_movement_data, get_movement_data_rows, if_neg hr] at h
    exact (Option.some.injEq _ _ ▸ h).symm

/-- The content of a `value_counts` dict: every occurring value maps to its
occurrence count, every other value is absent. -/
lemma dictLookup_value_counts (l : List String) (a : String) :
    dictLookup (value_counts l) a = if a ∈ l then some (l.count a) else none := by
  rw [value_counts, dictLookup_map_self]
  by_cases ha : a ∈ l
  · rw [if_pos ((List.mem_dedup).mpr ha), if_pos ha]
  · rw [if_neg (fun hc => ha ((List.mem_dedup).mp hc)), if_neg ha]

/-- `dictAdd` grows the total of the values by the added count. -/
lemma sumValues_dictAdd {α : Type} [DecidableEq α] (d : List (α × Int)) (k : α) (c : Int) :
    sumValues (dictAdd d k c) = sumValues d + c := by
  induction d with
  | nil => simp [dictAdd, sumValues]
  | cons p t ih =>
    by_cases hp : p.1 = k
    · simp only [dictAdd, if_pos hp, sumValues, List.map_cons, List.sum_cons]
      ring
    · simp only [dictAdd, if_neg hp, sumValues, List.map_cons, List.sum_cons] at ih ⊢
      rw [ih]
      ring

/-- Folding the creation accumulator over rows adds every row count to the
total of `by_source`. -/
lemma creation_foldl_sum (rows : List CreationRow)
    (acc : List (String × Int) × List (Int × Int)) :
    sumValues (rows.foldl creation_step acc).1 =
      sumValues acc.1 + (rows.map (fun r => r.count)).sum := by
  induction rows generalizing acc with
  | nil => simp
  | cons r t ih =>
    simp only [List.foldl_cons, List.map_cons, List.sum_cons]
    rw [ih]
    show sumValues (dictAdd acc.1 r.source r.count) + _ = _
    rw [sumValues_dictAdd]
    ring

/-! ## Claims -/

/-- C1 counterexample: the movement report operation on a window containing
no events (the adapter returns zero rows) yields `None`, not a zero-total
report: `pd.DataFrame([])['status']` raises `KeyError` and the catch-all
handler returns `None`. -/
theorem C1_counterexample : get_movement_data (Except.ok []) = none := rfl

/-- C1 (amended): on a window with no events, the creation, access and usage
operations return reports with zero totals and empty mappings, while the
movement operation returns an absent result (`None`), because its summary
derivation fails on zero rows. -/
theorem C1_empty_window_reports :
    get_creation_metrics (Except.ok []) =
      some { total_count := 0, by_source := [], by_hour := [], trend_data := [] } ∧
    get_access_patterns
        (Except.ok { access_by_hour := [], access_by_user := [], access_by_action := [] }) =
      some { by_hour := [], by_user := [], by_action := [] } ∧
    get_usage_analytics (Except.ok none) (Except.ok []) (Except.ok []) =
      some { current_metrics := { total_records := 0, by_source := [] },
             historical_over_time := [] } ∧
    get_movement_data (Except.ok []) = none :=
  ⟨rfl, rfl, rfl, rfl⟩

/-- C3 counterexample: two rows share status "completed" with movement
counts 5 and 7; the report maps "completed" to 2 (the number of rows), not
to the accumulated movement count 12 = 5 + 7 the claim states. -/
theorem C3_counterexample :
    (get_movement_data (Except.ok C3rows)).map
        (fun rep => dictLookup rep.summary.by_status "completed") = some (some 2) ∧
    (2 : Nat) ≠ 5 + 7 := by
  constructor
  · rfl
  · decide

/-- C3 (amended): `by_status` maps each status occurring in the returned rows
to the number of rows with that status (`value_counts` counts rows, not
summed `movement_count`), and likewise `by_source` per source; a status or
source absent from every row is omitted from the mapping. -/
theorem C3_by_status_row_counts (rows : List MovementRow) (rep : MovementReport)
    (h : get_movement_data (Except.ok rows) = some rep) :
    (∀ s : String,
      dictLookup rep.summary.by_status s =
        if s ∈ rows.map (fun r => r.status)
        then some ((rows.map (fun r => r.status)).count s) else none) ∧
    (∀ s : String,
      dictLookup rep.summary.by_source s =
        if s ∈ rows.map (fun r => r.source)
        then some ((rows.map (fun r => r.source)).count s) else none) := by
  obtain ⟨-, hrep⟩ := get_movement_data_ok_inv h
  subst hrep
  exact ⟨fun s => dictLookup_value_counts _ s, fun s => dictLookup_value_counts _ s⟩

/-- C3 witness: the amended statement evaluated on the two concrete rows of
the counterexample. -/
theorem C3_witness :
    (∀ s : String,
      dictLookup
          (MovementReport.summary
            { movements := C3rows
              summary :=
                { total_movements := 12
                  by_status := [("completed", 2)]
                  by_source := [("A", 2)] } }).by_status s =
        if s ∈ C3rows.map (fun r => r.status)
        then some ((C3rows.map (fun r => r.status)).count s) else none) ∧
    (∀ s : String,
      dictLookup
          (MovementReport.summary
            { movements := C3rows
              summary :=
                { total_movements := 12
                  by_status := [("completed", 2)]
                  by_source := [("A", 2)] } }).by_source s =
        if s ∈ C3rows.map (fun r => r.source)
        then some ((C3rows.map (fun r => r.source)).count s) else none) :=
  C3_by_status_row_counts C3rows _ (by rfl)

/-- C4 counterexample: when the backing store is unreachable (the adapter
raises), the creation, movement and access operations return `None` to the
caller; no typed failure is propagated. -/
theorem C4_counterexample :
    get_creation_metrics (Except.error "ConnectionError") = none ∧
    get_movement_data (Except.error "ConnectionError") = none ∧
    get_access_patterns (Except.error "ConnectionError") = none :=
  ⟨rfl, rfl, rfl⟩

/-- C4 (amended): whatever exception the backing store raises, the creation,
movement and access operations catch it and silently return `None` (an
absent value); the caller receives no typed `BackendUnavailable` failure. -/
theorem C4_catch_all_returns_none (e : String) :
    get_creation_metrics (Except.error e) = none ∧
    get_movement_data (Except.error e) = none ∧
    get_access_patterns (Except.error e) = none :=
  ⟨rfl, rfl, rfl⟩

/-- C5 counterexample: with the live counter cache healthy and only the
historical store unavailable, the usage operation returns `None` instead of
a report whose historical half holds zero-count defaults. -/
theorem C5_counterexample :
    get_usage_analytics (Except.ok (some 5)) (Except.ok [("web", 3)])
      (Except.error "ConnectionError") = none := rfl

/-- C5 (amended): if either source raises, the single catch-all handler
aborts the whole usage report and returns `None`; zero-count defaults are
applied only when the live counter keys are merely unset (`get` returning
nil becomes 0, `hgetall` returning an empty table), not when a source is
unavailable. -/
theorem C5_all_or_nothing (t : Option Int) (bs b : List (String × Int)) (e : String) :
    get_usage_analytics (Except.error e) (Except.ok bs) (Except.ok b) = none ∧
    get_usage_analytics (Except.ok t) (Except.error e) (Except.ok b) = none ∧
    get_usage_analytics (Except.ok t) (Except.ok bs) (Except.error e) = none ∧
    get_usage_analytics (Except.ok none) (Except.ok []) (Except.ok b) =
      some { current_metrics := { total_records := 0, by_source := [] },
             historical_over_time := b } :=
  ⟨rfl, rfl, rfl, rfl⟩

/-- C8: the creation report total is `sum(by_source.values())`, and that
derived total also equals the sum of the grouped row counts the adapter
returned (`trend_data` is the row list). -/
theorem C8_total_from_by_source (fetch : Except String (List CreationRow))
    (rep : CreationReport) (h : get_creation_metrics fetch = some rep) :
    rep.total_count = sumValues rep.by_source ∧
    rep.total_count = (rep.trend_data.map (fun r => r.count)).sum := by
  match fetch with
  | .error e => simp [get_creation_metrics] at h
  | .ok rows =>
    rw [get_creation_metrics] at h
    have hrep : rep = get_creation_metrics_rows rows := by
      exact (Option.some.injEq _ _ ▸ h).symm
    subst hrep
    refine ⟨rfl, ?_⟩
    show sumValues (rows.foldl creation_step ([], [])).1 = _
    rw [creation_foldl_sum]
    simp [sumValues, get_creation_metrics_rows]

/-- C8 witness: the creation invariant evaluated on one concrete row. -/
theorem C8_witness :
    C8rep.total_count = sumValues C8rep.by_source ∧
    C8rep.total_count = (C8rep.trend_data.map (fun r => r.count)).sum :=
  C8_total_from_by_source (Except.ok [C8row]) C8rep (by rfl)

/-- C9: the movement summary total equals the sum of `movement_count` over
the `movements` entries of the report. -/
theorem C9_total_movements_sum (fetch : Except String (List MovementRow))
    (rep : MovementReport) (h : get_movement_data fetch = some rep) :
    rep.summary.total_movements = (rep.movements.map (fun r => r.movement_count)).sum := by
  match fetch with
  | .error e => simp [get_movement_data] at h
  | .ok rows =>
    obtain ⟨-, hrep⟩ := get_movement_data_ok_inv h
    subst hrep
    rfl

/-- C9 witness: the movement invariant evaluated on one concrete row. -/
theorem C9_witness :
    C9rep.summary.total_movements =
      (C9rep.movements.map (fun r => r.movement_count)).sum :=
  C9_total_movements_sum (Except.ok [C9row]) C9rep (by rfl)

/-! ## Classifier lemmas -/

/-- Membership in a stable descending insertion. -/
lemma mem_insertDesc {q p : LoadPattern} {l : List LoadPattern} :
    q ∈ insertDesc p l ↔ q = p ∨ q ∈ l := by
  induction l with
  | nil => simp [insertDesc]
  | cons a t ih =>
    rw [insertDesc]
    by_cases hc : a.count > p.count
    · rw [if_pos hc]
      simp only [List.mem_cons, ih]
      tauto
    · rw [if_neg hc]
      simp only [List.mem_cons]

/-- Sorting by count keeps exactly the original patterns. -/
lemma mem_sortDesc {p : LoadPattern} {l : List LoadPattern} :
    p ∈ sortDesc l ↔ p ∈ l := by
  induction l with
  | nil => simp [sortDesc]
  | cons a t ih =>
    rw [sortDesc, mem_insertDesc]
    simp [ih]

set_option linter.unusedTactic false in
/-- Field-level description of one loop iteration: the ratio divides the
count by the global average, work-hour membership is the fixed 9..17 test on
the int hour, the explanatory threshold multiplies the partition baseline,
and the status and action follow the two fixed multipliers. -/
lemma mkLoadPattern_spec (avg w o : ℚ) (hour count : Int) :
    (mkLoadPattern avg w o hour count).hour = hour ∧
    (mkLoadPattern avg w o hour count).count = count ∧
    (mkLoadPattern avg w o hour count).load_ratio = (count : ℚ) / avg ∧
    (mkLoadPattern avg w o hour count).is_work_hour = decide (9 ≤ hour ∧ hour < 18) ∧
    (mkLoadPattern avg w o hour count).expected_threshold =
      (if (mkLoadPattern avg w o hour count).is_work_hour then w * (11/10 : ℚ)
       else o * (9/10 : ℚ)) ∧
    ((11/10 : ℚ) ≤ (mkLoadPattern avg w o hour count).load_ratio →
      (mkLoadPattern avg w o hour count).status = "high" ∧
      (mkLoadPattern avg w o hour count).action = "scale_up") ∧
    ((mkLoadPattern avg w o hour count).load_ratio ≤ (9/10 : ℚ) →
      (mkLoadPattern avg w o hour count).status = "low" ∧
      (mkLoadPattern avg w o hour count).action = "scale_down") ∧
    ((9/10 : ℚ) < (mkLoadPattern avg w o hour count).load_ratio →
      (mkLoadPattern avg w o hour count).load_ratio < (11/10 : ℚ) →
      (mkLoadPattern avg w o hour count).status = "normal" ∧
      (mkLoadPattern avg w o hour count).action = "maintain") := by
  unfold mkLoadPattern
  by_cases hwk : 9 ≤ hour ∧ hour < 18 <;>
    by_cases h1 : (11/10 : ℚ) ≤ (count : ℚ) / avg <;>
      by_cases h2 : (count : ℚ) / avg ≤ (9/10 : ℚ) <;>
        simp [hwk, h1, h2, work_hours_threshold, off_hours_threshold, high_load,
          low_load, ge_iff_le] <;>
          intros <;> first | rfl | linarith

/-- Every pattern an `Except.ok` run of the loop emits is the loop body
applied to some int hour and its count. -/
lemma analyze_items_spec {avg w o : ℚ} :
    ∀ {l : List (PyKey × Int)} {ps : List LoadPattern},
      analyze_items avg w o l = Except.ok ps →
      ∀ p ∈ ps, ∃ hour count : Int, p = mkLoadPattern avg w o hour count := by
  intro l
  induction l with
  | nil =>
    intro ps h p hp
    rw [analyze_items] at h
    cases h
    simp at hp
  | cons kv rest ih =>
    intro ps h p hp
    obtain ⟨k, count⟩ := kv
    cases hk : PyKey.toIntOpt k with
    | none =>
      simp only [analyze_items, hk] at h
      cases h
    | some hour =>
      by_cases havg : avg = 0
      · simp only [analyze_items, hk, if_pos havg] at h
        cases h
      · cases hrest : analyze_items avg w o rest with
        | error e =>
          simp only [analyze_items, hk, if_neg havg, hrest] at h
          cases h
        | ok tail =>
          simp only [analyze_items, hk, if_neg havg, hrest, Except.ok.injEq] at h
          subst h
          rcases List.mem_cons.mp hp with hp | hp
          · exact ⟨hour, count, hp⟩
          · exact ih hrest p hp

/-- With a nonzero average and every key parseable, the loop raises
nothing. -/
lemma analyze_items_isOk (avg w o : ℚ) (havg : avg ≠ 0) :
    ∀ {l : List (PyKey × Int)}, (∀ p ∈ l, (PyKey.toIntOpt p.1).isSome) →
      ∃ ps, analyze_items avg w o l = Except.ok ps := by
  intro l
  induction l with
  | nil => exact fun _ => ⟨[], rfl⟩
  | cons kv rest ih =>
    intro hkeys
    obtain ⟨k, count⟩ := kv
    obtain ⟨ps, hps⟩ := ih (fun p hp => hkeys p (List.mem_cons_of_mem _ hp))
    cases hk : PyKey.toIntOpt k with
    | none =>
      have hh := hkeys (k, count) (List.mem_cons_self _ _)
      rw [hk] at hh
      cases hh
    | some hour =>
      refine ⟨mkLoadPattern avg w o hour count :: ps, ?_⟩
      simp only [analyze_items, hk, if_neg havg, hps]

/-- Inversion of a returning classifier run: the input was non-empty, the
loop succeeded, and the result fields are as the source builds them. -/
lemma analyze_ret_inv {d : List (PyKey × Int)} {r : LoadAnalysis}
    (h : analyze_load_patterns d = PyOutcome.ret r) :
    d ≠ [] ∧
    ∃ ps,
      analyze_items (avg_load d) (work_hours_avg d) (off_hours_avg d) d = Except.ok ps ∧
      r.patterns = sortDesc ps ∧
      r.summary.average_load = avg_load d ∧
      r.summary.work_hours_avg = work_hours_avg d ∧
      r.summary.off_hours_avg = off_hours_avg d := by
  by_cases hd : d = []
  · rw [analyze_load_patterns, if_pos hd] at h
    cases h
  · refine ⟨hd, ?_⟩
    rw [analyze_load_patterns, if_neg hd] at h
    cases hit : analyze_items (avg_load d) (work_hours_avg d) (off_hours_avg d) d with
    | error e => rw [hit] at h; cases h
    | ok ps =>
      rw [hit] at h
      cases h
      exact ⟨ps, rfl, rfl, rfl, rfl, rfl⟩

/-- A non-empty mapping whose counts do not sum to zero has a nonzero
average. -/
lemma avg_load_ne_zero {d : List (PyKey × Int)} (hne : d ≠ [])
    (hsum : (d.map Prod.snd).sum ≠ 0) : avg_load d ≠ 0 := by
  rw [avg_load]
  apply div_ne_zero
  · exact_mod_cast hsum
  · have hl : (d.map Prod.snd).length ≠ 0 := by
      simp only [List.length_map]
      exact fun hc => hne (List.length_eq_zero.mp hc)
    exact_mod_cast hl

/-- A string key never equals an int key, so on an all-int-keyed dict every
`str(hour)` lookup misses. -/
lemma dictLookup_str_of_int_keys {d : List (PyKey × Int)}
    (hkeys : ∀ p ∈ d, ∃ n : Int, p.1 = PyKey.int n) (s : String) :
    dictLookup d (PyKey.str s) = none := by
  induction d with
  | nil => rfl
  | cons p t ih =>
    obtain ⟨n, hn⟩ := hkeys p (List.mem_cons_self p t)
    rw [dictLookup, hn, if_neg (by simp)]
    exact ih (fun q hq => hkeys q (List.mem_cons_of_mem p hq))

/-! ## Classifier claims -/

/-- C2 counterexample: the mapping sending hour 5 (an integer key in
[0, 23]) to count 0 is non-empty, yet the classifier raises
`ZeroDivisionError` (`count / avg_load` with a zero average) instead of
returning a result. -/
theorem C2_counterexample :
    analyze_load_patterns [(PyKey.int 5, 0)] = PyOutcome.raised "ZeroDivisionError" := by
  have havg : avg_load [(PyKey.int 5, 0)] = 0 := by norm_num [avg_load]
  rw [analyze_load_patterns, if_neg (by decide), havg]
  rfl

/-- C2 (amended): for every non-empty mapping whose keys parse as integers
in [0, 23] and whose counts do not sum to zero, the classifier returns a
result (it neither raises nor returns the absent value); with all counts
zero the division by the zero average raises. -/
theorem C2_nonzero_input_returns (d : List (PyKey × Int)) (hne : d ≠ [])
    (hkeys : ∀ p ∈ d, ∃ n : Int, PyKey.toIntOpt p.1 = some n ∧ 0 ≤ n ∧ n ≤ 23)
    (hsum : (d.map Prod.snd).sum ≠ 0) :
    ∃ r, analyze_load_patterns d = PyOutcome.ret r := by
  have havg := avg_load_ne_zero hne hsum
  obtain ⟨ps, hps⟩ := analyze_items_isOk (avg_load d) (work_hours_avg d) (off_hours_avg d)
    havg (fun p hp => by obtain ⟨n, hn, -, -⟩ := hkeys p hp; rw [hn]; rfl)
  exact ⟨_, by rw [analyze_load_patterns, if_neg hne, hps]⟩

/-- C6: whenever the classifier returns, the reported average is the global
mean of all counts present, each pattern's load ratio divides its count by
that global average (not by the partition baseline), and the status and
action follow the fixed multipliers: ratio at least 1.1 is high/scale_up,
ratio at most 0.9 is low/scale_down, anything strictly between is
normal/maintain. -/
theorem C6_global_average_classification (d : List (PyKey × Int)) (r : LoadAnalysis)
    (h : analyze_load_patterns d = PyOutcome.ret r) :
    r.summary.average_load =
      (((d.map Prod.snd).sum : Int) : ℚ) / ((d.map Prod.snd).length : ℚ) ∧
    ∀ p ∈ r.patterns,
      p.load_ratio = (p.count : ℚ) / r.summary.average_load ∧
      ((11/10 : ℚ) ≤ p.load_ratio → p.status = "high" ∧ p.action = "scale_up") ∧
      (p.load_ratio ≤ (9/10 : ℚ) → p.status = "low" ∧ p.action = "scale_down") ∧
      ((9/10 : ℚ) < p.load_ratio → p.load_ratio < (11/10 : ℚ) →
        p.status = "normal" ∧ p.action = "maintain") := by
  obtain ⟨hne, ps, hit, hpat, havg, hw, ho⟩ := analyze_ret_inv h
  constructor
  · rw [havg, avg_load]
  · intro p hp
    rw [hpat] at hp
    obtain ⟨hour, count, hpe⟩ := analyze_items_spec hit p (mem_sortDesc.mp hp)
    obtain ⟨f1, f2, f3, f4, f5, f6, f7, f8⟩ :=
      mkLoadPattern_spec (avg_load d) (work_hours_avg d) (off_hours_avg d) hour count
    subst hpe
    rw [havg]
    exact ⟨by rw [f3, f2], f6, f7, f8⟩

/-- C10: on an integer-keyed mapping the string-keyed partition lookups find
nothing, so both partition averages fall back to the global average and
every pattern's explanatory threshold is the global average times 1.1 for a
work hour and times 0.9 for an off hour. -/
theorem C10_int_keys_no_partition_match (d : List (PyKey × Int)) (r : LoadAnalysis)
    (hkeys : ∀ p ∈ d, ∃ n : Int, p.1 = PyKey.int n)
    (h : analyze_load_patterns d = PyOutcome.ret r) :
    work_hours_values d = [] ∧
    off_hours_values d = [] ∧
    r.summary.work_hours_avg = r.summary.average_load ∧
    r.summary.off_hours_avg = r.summary.average_load ∧
    ∀ p ∈ r.patterns,
      p.is_work_hour = decide (9 ≤ p.hour ∧ p.hour < 18) ∧
      p.expected_threshold =
        (if p.is_work_hour then r.summary.average_load * (11/10 : ℚ)
         else r.summary.average_load * (9/10 : ℚ)) := by
  have hwv : work_hours_values d = [] := by
    rw [work_hours_values, List.filterMap_eq_nil_iff]
    intro a _
    exact dictLookup_str_of_int_keys hkeys _
  have hov : off_hours_values d = [] := by
    rw [off_hours_values, List.filterMap_eq_nil_iff]
    intro a _
    exact dictLookup_str_of_int_keys hkeys _
  have hwa : work_hours_avg d = avg_load d := by rw [work_hours_avg, if_pos hwv]
  have hoa : off_hours_avg d = avg_load d := by rw [off_hours_avg, if_pos hov]
  obtain ⟨hne, ps, hit, hpat, havg, hw, ho⟩ := analyze_ret_inv h
  refine ⟨hwv, hov, by rw [hw, hwa, havg], by rw [ho, hoa, havg], ?_⟩
  intro p hp
  rw [hpat] at hp
  obtain ⟨hour, count, hpe⟩ := analyze_items_spec hit p (mem_sortDesc.mp hp)
  obtain ⟨f1, f2, f3, f4, f5, -, -, -⟩ :=
    mkLoadPattern_spec (avg_load d) (work_hours_avg d) (off_hours_avg d) hour count
  subst hpe
  refine ⟨by rw [f4, f1], ?_⟩
  rw [f5, hwa, hoa, havg]

/-! ## Relating the lookup iteration to the key-filtered entries -/

/-- A key absent from the key column is not found. -/
lemma dictLookup_eq_none_of_not_mem {α β : Type} [DecidableEq α] {k : α} :
    ∀ {t : List (α × β)}, k ∉ t.map Prod.fst → dictLookup t k = none := by
  intro t
  induction t with
  | nil => intro _; rfl
  | cons p s ih =>
    intro h
    rw [List.map_cons, List.mem_cons] at h
    push_neg at h
    rw [dictLookup, if_neg (fun he => h.1 he.symm), ih h.2]

/-- When `k` is not a key of `d`, membership of an entry key in `k :: ks`
filters the same entries as membership in `ks`. -/
lemma filter_mem_cons_of_lookup_none {k : PyKey} {ks : List PyKey} :
    ∀ {d : List (PyKey × Int)}, dictLookup d k = none →
      d.filter (fun p => decide (p.1 ∈ k :: ks)) = d.filter (fun p => decide (p.1 ∈ ks)) := by
  intro d
  induction d with
  | nil => intro _; rfl
  | cons a t ih =>
    intro hc
    rw [dictLookup] at hc
    by_cases ha : a.1 = k
    · rw [if_pos ha] at hc
      cases hc
    · rw [if_neg ha] at hc
      have hcond : (decide (a.1 ∈ k :: ks)) = (decide (a.1 ∈ ks)) := by
        simp [List.mem_cons, ha]
      rw [List.filter_cons, List.filter_cons, hcond, ih hc]

/-- When `k` is a key of `d` bound to `c` and does not recur in `ks`, the
entries with key in `k :: ks` are, up to order, the entry `(k, c)` and the
entries with key in `ks`. -/
lemma filter_mem_cons_perm {k : PyKey} {ks : List PyKey} (hk : k ∉ ks) :
    ∀ {d : List (PyKey × Int)} {c : Int}, (d.map Prod.fst).Nodup →
      dictLookup d k = some c →
      List.Perm (d.filter (fun p => decide (p.1 ∈ k :: ks)))
        ((k, c) :: d.filter (fun p => decide (p.1 ∈ ks))) := by
  intro d
  induction d with
  | nil => intro c _ hc; cases hc
  | cons a t ih =>
    intro c hnd hc
    rw [List.map_cons, List.nodup_cons] at hnd
    rw [dictLookup] at hc
    by_cases ha : a.1 = k
    · rw [if_pos ha] at hc
      have hac : a.2 = c := Option.some.inj hc
      have hkt : dictLookup t k = none :=
        dictLookup_eq_none_of_not_mem (ha ▸ hnd.1)
      have e1 : (decide (a.1 ∈ k :: ks)) = true := by simp [ha]
      have e2 : (decide (a.1 ∈ ks)) = false := by simp [ha, hk]
      rw [List.filter_cons, List.filter_cons, e1, e2, if_pos rfl,
        if_neg (by simp), filter_mem_cons_of_lookup_none hkt]
      have hakc : a = (k, c) := by
        cases a
        simp only [Prod.mk.injEq]
        exact ⟨ha, hac⟩
      rw [hakc]
    · rw [if_neg ha] at hc
      have ih2 := ih hnd.2 hc
      by_cases hin : a.1 ∈ ks
      · have e1 : (decide (a.1 ∈ k :: ks)) = true := by simp [hin]
        have e2 : (decide (a.1 ∈ ks)) = true := by simp [hin]
        rw [List.filter_cons, List.filter_cons, e1, e2, if_pos rfl, if_pos rfl]
        exact (ih2.cons a).trans (List.Perm.swap (k, c) a _)
      · have e1 : (decide (a.1 ∈ k :: ks)) = false := by
          simp [List.mem_cons, ha, hin]
        have e2 : (decide (a.1 ∈ ks)) = false := by simp [hin]
        rw [List.filter_cons, List.filter_cons, e1, e2, if_neg (by simp),
          if_neg (by simp)]
        exact ih2

/-- Iterating a duplicate-free key list and collecting the found values
yields, up to order, the values of the dict entries whose key lies in the
list. -/
lemma filterMap_lookup_perm :
    ∀ {ks : List PyKey}, ks.Nodup → ∀ (d : List (PyKey × Int)),
      (d.map Prod.fst).Nodup →
      List.Perm (ks.filterMap (fun k => dictLookup d k))
        ((d.filter (fun p => decide (p.1 ∈ ks))).map Prod.snd) := by
  intro ks
  induction ks with
  | nil =>
    intro _ d _
    simp
  | cons k ks ih =>
    intro hks d hnd
    rw [List.nodup_cons] at hks
    rw [List.filterMap_cons]
    cases hc : dictLookup d k with
    | none =>
      rw [filter_mem_cons_of_lookup_none hc]
      exact ih hks.2 d hnd
    | some c =>
      have h1 := (ih hks.2 d hnd).cons c
      have h2 := (filter_mem_cons_perm hks.1 hnd hc).map Prod.snd
      rw [List.map_cons] at h2
      exact h1.trans h2.symm

/-- The lookup-built work-hours values are a permutation of the values of
the entries keyed by a work-hour string. -/
lemma work_hours_values_perm {d : List (PyKey × Int)}
    (hnd : (d.map Prod.fst).Nodup) :
    List.Perm (work_hours_values d) (keyedValues d (hourStrKeys work_hours_range)) := by
  have he : work_hours_values d =
      (hourStrKeys work_hours_range).filterMap (fun k => dictLookup d k) := by
    rw [work_hours_values, hourStrKeys, List.filterMap_map]
    rfl
  rw [he, keyedValues]
  exact filterMap_lookup_perm (by decide) d hnd

/-- The lookup-built off-hours values are a permutation of the values of the
entries keyed by an off-hour string. -/
lemma off_hours_values_perm {d : List (PyKey × Int)}
    (hnd : (d.map Prod.fst).Nodup) :
    List.Perm (off_hours_values d) (keyedValues d (hourStrKeys off_hours_range)) := by
  have he : off_hours_values d =
      (hourStrKeys off_hours_range).filterMap (fun k => dictLookup d k) := by
    rw [off_hours_values, hourStrKeys, List.filterMap_map]
    rfl
  rw [he, keyedValues]
  exact filterMap_lookup_perm (by decide) d hnd

/-- A partition average rewritten through a permutation of its value list:
emptiness, sum and length are permutation-invariant. -/
lemma partition_avg_congr {xs ys : List Int} (hp : List.Perm xs ys) (a : ℚ) :
    (if xs = [] then a else ((xs.sum : Int) : ℚ) / (xs.length : ℚ)) =
      (if ys = [] then a else ((ys.sum : Int) : ℚ) / (ys.length : ℚ)) := by
  by_cases hemp : xs = []
  · subst hemp
    rw [if_pos rfl, if_pos (List.perm_nil.mp hp.symm)]
  · have hys : ys ≠ [] := by
      intro hc
      exact hemp (List.perm_nil.mp (hc ▸ hp))
    rw [if_neg hemp, if_neg hys, hp.sum_eq, hp.length_eq]

/-- Concrete classifier run on the integer-keyed two-hour example. -/
lemma C6ex_run : analyze_load_patterns C6ex = PyOutcome.ret C6res := by
  have hw : work_hours_values C6ex = [] := by decide
  have ho : off_hours_values C6ex = [] := by decide
  have havg : avg_load C6ex = 3/2 := by norm_num [avg_load, C6ex]
  have hwa : work_hours_avg C6ex = 3/2 := by rw [work_hours_avg, if_pos hw, havg]
  have hoa : off_hours_avg C6ex = 3/2 := by rw [off_hours_avg, if_pos ho, havg]
  have hk9 : PyKey.toIntOpt (PyKey.int 9) = some 9 := rfl
  have hk0 : PyKey.toIntOpt (PyKey.int 0) = some 0 := rfl
  have hitems : analyze_items (3/2) (3/2) (3/2) C6ex = Except.ok [C6p9, C6p0] := by
    have hmk9 : mkLoadPattern (3/2) (3/2) (3/2) 9 2 = C6p9 := by
      simp only [mkLoadPattern, C6p9]
      norm_num [high_load, low_load, work_hours_threshold]
    have hmk0 : mkLoadPattern (3/2) (3/2) (3/2) 0 1 = C6p0 := by
      simp only [mkLoadPattern, C6p0]
      norm_num [high_load, low_load, off_hours_threshold]
    simp only [C6ex, analyze_items, hk9, hk0, if_neg (by norm_num : ¬((3/2 : ℚ) = 0)),
      hmk9, hmk0]
  rw [analyze_load_patterns, if_neg (by decide : ¬(C6ex = [])), havg, hwa, hoa, hitems]
  rfl

/-- Concrete classifier run on the string-keyed two-hour example. -/
lemma C7ex_run : analyze_load_patterns C7ex = PyOutcome.ret C7res := by
  have hw : work_hours_values C7ex = [100] := by decide
  have ho : off_hours_values C7ex = [10] := by decide
  have havg : avg_load C7ex = 55 := by norm_num [avg_load, C7ex]
  have hwa : work_hours_avg C7ex = 100 := by
    rw [work_hours_avg, if_neg (by decide), hw]
    norm_num
  have hoa : off_hours_avg C7ex = 10 := by
    rw [off_hours_avg, if_neg (by decide), ho]
    norm_num
  have hk9 : PyKey.toIntOpt (PyKey.str "9") = some 9 := by decide
  have hk0 : PyKey.toIntOpt (PyKey.str "0") = some 0 := by decide
  have hitems : analyze_items 55 100 10 C7ex = Except.ok [C7p9, C7p0] := by
    have hmk9 : mkLoadPattern 55 100 10 9 100 = C7p9 := by
      simp only [mkLoadPattern, C7p9]
      norm_num [high_load, low_load, work_hours_threshold]
    have hmk0 : mkLoadPattern 55 100 10 0 10 = C7p0 := by
      simp only [mkLoadPattern, C7p0]
      norm_num [high_load, low_load, off_hours_threshold]
    simp only [C7ex, analyze_items, hk9, hk0, if_neg (by norm_num : ¬((55 : ℚ) = 0)),
      hmk9, hmk0]
  rw [analyze_load_patterns, if_neg (by decide : ¬(C7ex = [])), havg, hwa, hoa, hitems]
  rfl

/-- C2 witness: the amended statement at the concrete string-keyed mapping
sending "9" to 100 and "0" to 10. -/
theorem C2_witness :
    (C7ex ≠ [] ∧ (C7ex.map Prod.snd).sum ≠ 0) ∧
    ∃ r, analyze_load_patterns C7ex = PyOutcome.ret r :=
  ⟨⟨by decide, by decide⟩,
    C2_nonzero_input_returns C7ex (by decide)
      (by
        intro p hp
        fin_cases hp
        · exact ⟨9, by decide, by decide, by decide⟩
        · exact ⟨0, by decide, by decide, by decide⟩)
      (by decide)⟩

/-- C6 witness: the classification statement at the concrete integer-keyed
mapping sending 9 to 2 and 0 to 1 (average 3/2; hour 9 has ratio 4/3 and is
high, hour 0 has ratio 2/3 and is low). -/
theorem C6_witness :
    analyze_load_patterns C6ex = PyOutcome.ret C6res ∧
    (C6res.summary.average_load =
      (((C6ex.map Prod.snd).sum : Int) : ℚ) / ((C6ex.map Prod.snd).length : ℚ) ∧
    ∀ p ∈ C6res.patterns,
      p.load_ratio = (p.count : ℚ) / C6res.summary.average_load ∧
      ((11/10 : ℚ) ≤ p.load_ratio → p.status = "high" ∧ p.action = "scale_up") ∧
      (p.load_ratio ≤ (9/10 : ℚ) → p.status = "low" ∧ p.action = "scale_down") ∧
      ((9/10 : ℚ) < p.load_ratio → p.load_ratio < (11/10 : ℚ) →
        p.status = "normal" ∧ p.action = "maintain")) :=
  ⟨C6ex_run, C6_global_average_classification C6ex C6res C6ex_run⟩

/-- C10 witness: the fallback statement at the same integer-keyed mapping:
both partition averages collapse to the global average 3/2 and each
threshold is 3/2 times the fixed multiplier. -/
theorem C10_witness :
    work_hours_values C6ex = [] ∧
    off_hours_values C6ex = [] ∧
    C6res.summary.work_hours_avg = C6res.summary.average_load ∧
    C6res.summary.off_hours_avg = C6res.summary.average_load ∧
    ∀ p ∈ C6res.patterns,
      p.is_work_hour = decide (9 ≤ p.hour ∧ p.hour < 18) ∧
      p.expected_threshold =
        (if p.is_work_hour then C6res.summary.average_load * (11/10 : ℚ)
         else C6res.summary.average_load * (9/10 : ℚ)) :=
  C10_int_keys_no_partition_match C6ex C6res
    (by
      intro p hp
      fin_cases hp
      · exact ⟨9, rfl⟩
      · exact ⟨0, rfl⟩)
    C6ex_run

/-- C7 counterexample: on the integer-keyed mapping sending 9 to 2 and 0
to 1, the work partition has data (hour 9, count 2, mean 2), yet the
classifier reports `work_hours_avg = 3/2` — the global average — because its
lookups test string keys; 3/2 is not the partition mean 2 the claim
states. -/
theorem C7_counterexample :
    (analyze_load_patterns C6ex).retOpt.map (fun r => r.summary.work_hours_avg) =
      some (3/2 : ℚ) ∧ (3/2 : ℚ) ≠ 2 := by
  constructor
  · rw [C6ex_run]
    rfl
  · norm_num

/-- C7 (amended): the partition membership the code implements keys on the
string form `str(hour)`: for any duplicate-free mapping, each partition
average is the mean of the values of the entries whose key is the string of
a partition hour, falling back to the global average when no entry is so
keyed (in particular integer-keyed mappings always fall back). -/
theorem C7_partition_means (d : List (PyKey × Int)) (r : LoadAnalysis)
    (hnd : (d.map Prod.fst).Nodup)
    (h : analyze_load_patterns d = PyOutcome.ret r) :
    (r.summary.work_hours_avg =
      if keyedValues d (hourStrKeys work_hours_range) = [] then r.summary.average_load
      else ((keyedValues d (hourStrKeys work_hours_range)).sum : Int) /
        ((keyedValues d (hourStrKeys work_hours_range)).length : ℚ)) ∧
    (r.summary.off_hours_avg =
      if keyedValues d (hourStrKeys off_hours_range) = [] then r.summary.average_load
      else ((keyedValues d (hourStrKeys off_hours_range)).sum : Int) /
        ((keyedValues d (hourStrKeys off_hours_range)).length : ℚ)) := by
  obtain ⟨hne, ps, hit, hpat, havg, hw, ho⟩ := analyze_ret_inv h
  constructor
  · rw [hw, havg, work_hours_avg]
    exact partition_avg_congr (work_hours_values_perm hnd) (avg_load d)
  · rw [ho, havg, off_hours_avg]
    exact partition_avg_congr (off_hours_values_perm hnd) (avg_load d)

/-- C7 witness: the amended statement at the concrete string-keyed mapping:
the work partition mean is 100, the off partition mean is 10. -/
theorem C7_witness :
    (analyze_load_patterns C7ex = PyOutcome.ret C7res) ∧
    ((C7res.summary.work_hours_avg =
      if keyedValues C7ex (hourStrKeys work_hours_range) = [] then C7res.summary.average_load
      else ((keyedValues C7ex (hourStrKeys work_hours_range)).sum : Int) /
        ((keyedValues C7ex (hourStrKeys work_hours_range)).length : ℚ)) ∧
    (C7res.summary.off_hours_avg =
      if keyedValues C7ex (hourStrKeys off_hours_range) = [] then C7res.summary.average_load
      else ((keyedValues C7ex (hourStrKeys off_hours_range)).sum : Int) /
        ((keyedValues C7ex (hourStrKeys off_hours_range)).length : ℚ))) :=
  ⟨C7ex_run, C7_partition_means C7ex C7res (by decide) C7ex_run⟩
